import Mathlib

/-!
Verification of the debate-orchestration control loop of
`src/backend/patterns/debate_ai_foundry.py` (class `DebateOrchestrator`).

The Python file wires two agents (a Writer and a Critic) into a
semantic-kernel `AgentGroupChat` with a model-driven speaker-selection
strategy and a score-based termination strategy, and exposes the whole
debate as an async generator (`process_conversation`) that yields status
strings followed by one final JSON message.

The shallow embedding below translates the repository's own functions
(`parse_selection_output`, `should_agent_terminate`,
`create_termination_strategy`, the body of `process_conversation`) into
pure Lean functions.  External model invocations are abstracted as
function parameters or as their parsed outcomes (an `Option ℚ` for the
score-extraction chain `float(str(kernel.invoke(...)))`, where `none` is
the `ValueError` branch caught in the source).  Behaviour of the
semantic-kernel library itself (the group-chat loop, the registered-agent
dispatch of the termination strategy, the ordering of
`get_chat_messages`) is not part of the repository; those definitions are
marked `Modelled from the spec:`.
-/

namespace Debate

/-- Author role of a chat message (`semantic_kernel` `AuthorRole` values
used by the source: the history loader admits `user`/`assistant`,
agents answer as `assistant`). -/
inductive AuthorRole
| user
| assistant
| system
| tool
deriving DecidableEq, Repr

/-- One chat message (`ChatMessageContent`): role, speaker name, content.
This is the spec's Turn. -/
structure Turn where
  role : AuthorRole
  name : String
  content : String
deriving DecidableEq, Repr

/- ----------------------------------------------------------------
Speaker selection (`create_selection_strategy` / `parse_selection_output`)
---------------------------------------------------------------- -/

/-- One item of a kernel `FunctionResult.value` list; the source reads
`output.value[0].content`. -/
structure SelectionContent where
  content : String
deriving DecidableEq, Repr

/-- The kernel `FunctionResult` handed to the `result_parser`:
`output.value` is `None` or a list of contents. -/
structure FunctionResult where
  value : Option (List SelectionContent)
deriving DecidableEq, Repr

/-- Errors the embedded Python code can raise. -/
inductive PyError
| indexError
deriving DecidableEq, Repr

/-- Embedding of `parse_selection_output` (lines 235-239):
`if output.value is not None: return output.value[0].content` —
`output.value[0]` on an empty list raises `IndexError` —
`return default_agent.name` otherwise.  The returned string is NOT
validated against the agent roster. -/
def parse_selection_output (default_agent_name : String)
    (output : FunctionResult) : Except PyError String :=
  match output.value with
  | some (c :: _) => .ok c.content
  | some [] => .error .indexError
  | none => .ok default_agent_name

/-- Modelled from the spec: the agent roster built by
`create_agent_group_chat` is `[writer, critic]`; the agents' names come
from `agents/writer.yaml` and `agents/critic.yaml`, which are not in the
repository.  The spec (and the source's own `r.name == "Writer"` filter
and its selection prompt) fixes the two names. -/
def roster : List String := ["Writer", "Critic"]

/- ----------------------------------------------------------------
Termination strategy (`create_termination_strategy` /
`CompletionTerminationStrategy.should_agent_terminate`)
---------------------------------------------------------------- -/

/-- State of a `CompletionTerminationStrategy` instance: the registered
agents and `maximum_iterations` passed to the constructor, and the
mutable `iteration` counter (pydantic `Field(default=0)`). -/
structure TerminationStrategy where
  agents : List String
  maximum_iterations : Nat
  iteration : Nat
deriving DecidableEq, Repr

/-- Embedding of the constructor call
`CompletionTerminationStrategy(agents=agents, maximum_iterations=maximum_iterations)`
in `create_termination_strategy` (lines 305-306); `iteration` starts at 0. -/
def create_termination_strategy (agents : List String)
    (maximum_iterations : Nat) : TerminationStrategy :=
  { agents := agents, maximum_iterations := maximum_iterations, iteration := 0 }

/-- The termination strategy built by `create_agent_group_chat`
(lines 128-130): registered on the critic only, `maximum_iterations=6`. -/
def create_agent_group_chat_termination : TerminationStrategy :=
  create_termination_strategy ["Critic"] 6

/-- Passing score threshold of `should_agent_terminate` (line 297:
`float(str(res_val)) >= 8.0`). -/
def passing_score : ℚ := 8

/-- Observable effects of one `should_agent_terminate` invocation, in
execution order: the counter increment (line 286, with the new value),
then the evaluation of the termination condition (lines 292-303, with
the decision). -/
inductive TermEvent
| incremented (newCount : Nat)
| evaluated (stop : Bool)
deriving DecidableEq, Repr

/-- The `try`/`except ValueError` block of `should_agent_terminate`
(lines 295-300): if the utility model's answer parsed as a float
(`extracted = some q`) the decision is `q >= 8.0`, and on `ValueError`
(`extracted = none`) the decision is `False`. -/
def evalStop (extracted : Option ℚ) : Bool :=
  match extracted with
  | some q => decide (passing_score ≤ q)
  | none => false

/-- Embedding of `should_agent_terminate` (lines 283-303).  The argument
`extracted` is the outcome of `float(str(res_val))` where `res_val` is
the utility model's extraction over `history[-1].content`; `none` is the
`ValueError` branch.  Returns the updated strategy state, the decision,
and the effect trace (increment strictly before evaluation, as in the
source where `self.iteration += 1` is the first statement). -/
def should_agent_terminate (st : TerminationStrategy)
    (extracted : Option ℚ) : TerminationStrategy × Bool × List TermEvent :=
  let st1 := { st with iteration := st.iteration + 1 }
  let stop := evalStop extracted
  (st1, stop, [TermEvent.incremented st1.iteration, TermEvent.evaluated stop])

/-- Modelled from the spec: the wrapper around `should_agent_terminate`
lives in the semantic-kernel library, not in the repository.  Per the
spec, termination evaluation runs only for agents the strategy was
registered with (the critic), and termination is forced once the
iteration counter reaches `maximum_iterations` (the hard cap,
independent of score). -/
def should_terminate (st : TerminationStrategy) (agentName : String)
    (extracted : Option ℚ) : TerminationStrategy × Bool × List TermEvent :=
  if agentName ∈ st.agents then
    let r := should_agent_terminate st extracted
    (r.1, r.2.1 || decide (st.maximum_iterations ≤ r.1.iteration), r.2.2)
  else
    (st, false, [])

/- ----------------------------------------------------------------
Debate loop (`AgentGroupChat.invoke`) — library code, modelled from the spec
---------------------------------------------------------------- -/

/-- The external model-invocation capabilities one loop iteration uses:
speaker selection over the history, turn production by the selected
agent, and score extraction from a critique's content
(`float(str(kernel.invoke(termination_function, evaluation=...)))`). -/
structure LoopDeps where
  select : List Turn → String
  produce : String → List Turn → Turn
  extract : String → Option ℚ

/-- A group chat: the conversation history (chronological, append-only)
plus the termination-strategy state. -/
structure GroupChat where
  history : List Turn
  termination : TerminationStrategy

/-- Modelled from the spec: one iteration of the semantic-kernel
`AgentGroupChat.invoke` loop (library code, not in the repository).
The Turn-Selector picks the next agent, the agent produces a Turn
appended to the history, then the termination strategy inspects the
just-appended Turn (`history[-1]`). -/
def debate_step (d : LoopDeps) (s : GroupChat) : GroupChat × Bool :=
  let t := d.produce (d.select s.history) s.history
  let r := should_terminate s.termination (d.select s.history) (d.extract t.content)
  ({ history := s.history ++ [t], termination := r.1 }, r.2.1)

/-- Modelled from the spec: the debate loop repeats `debate_step` until
the termination strategy says stop.  `fuel` bounds the recursion for
totality; it plays no role in the cap theorem, which holds for every
fuel.  Returns the final chat state and whether the loop stopped by
decision (rather than by running out of fuel). -/
def debate_run (d : LoopDeps) : Nat → GroupChat → GroupChat × Bool
  | 0, s => (s, false)
  | Nat.succ n, s =>
    let r := debate_step d s
    if r.2 then (r.1, true) else debate_run d n r.1

/- ----------------------------------------------------------------
Session id (`process_conversation`, lines 169-170)
---------------------------------------------------------------- -/

/-- A Python `datetime.datetime` value as produced by `datetime.now()`:
calendar fields down to microseconds.  The library guarantees
`1 <= year <= 9999`, `1 <= month <= 12`, `1 <= day <= 31`,
`hour <= 23`, `minute <= 59`, `second <= 59`,
`microsecond <= 999999`. -/
structure DateTime where
  year : Nat
  month : Nat
  day : Nat
  hour : Nat
  minute : Nat
  second : Nat
  microsecond : Nat
deriving DecidableEq, Repr

/-- The decimal digit character for `n ≤ 9` (the only inputs the
formatter feeds it on library-valid datetimes). -/
def digitChar (n : Nat) : Char :=
  match n with
  | 0 => '0' | 1 => '1' | 2 => '2' | 3 => '3' | 4 => '4'
  | 5 => '5' | 6 => '6' | 7 => '7' | 8 => '8' | _ => '9'

/-- Two-digit zero-padded decimal rendering (Python `%m %d %H %M %S`),
faithful for the 0-99 range that valid datetime fields occupy. -/
def two_digits (n : Nat) : List Char :=
  [digitChar (n / 10), digitChar (n % 10)]

/-- Four-digit zero-padded decimal rendering (Python `%Y`), faithful
for the 1-9999 year range of `datetime`. -/
def four_digits (n : Nat) : List Char :=
  [digitChar (n / 1000), digitChar (n / 100 % 10),
   digitChar (n / 10 % 10), digitChar (n % 10)]

/-- Python `datetime.strftime` with the source's format string
`%Y-%m-%d_%H:%M:%S` (line 169): second precision, the `microsecond`
field is dropped. -/
def strftime_fmt (t : DateTime) : String :=
  String.mk (four_digits t.year ++ '-' :: two_digits t.month
    ++ '-' :: two_digits t.day ++ '_' :: two_digits t.hour
    ++ ':' :: two_digits t.minute ++ ':' :: two_digits t.second)

/-- Embedding of lines 169-170:
`session_id = f"{user_id}-{current_time}"` with
`current_time = datetime.datetime.now().strftime("%Y-%m-%d_%H:%M:%S")`. -/
def session_id (user_id : String) (now : DateTime) : String :=
  user_id ++ "-" ++ strftime_fmt now

/- ----------------------------------------------------------------
The output stream of `process_conversation` (lines 137-190)
---------------------------------------------------------------- -/

/-- An incoming conversation entry (`conversation_messages` items:
dictionaries with role, name and content). -/
structure InMessage where
  role : String
  name : String
  content : String
deriving DecidableEq, Repr

/-- `AuthorRole(d.get('role'))` for the roles that survive the filter. -/
def toAuthorRole (s : String) : AuthorRole :=
  if s = "user" then AuthorRole.user else AuthorRole.assistant

/-- Embedding of the `chat_history` comprehension (lines 156-162):
keep entries whose role is `assistant` or `user`, and turn each into a
`ChatMessageContent`. -/
def load_chat_history (msgs : List InMessage) : List Turn :=
  (msgs.filter (fun m => m.role == "assistant" || m.role == "user")).map
    (fun m => { role := toAuthorRole m.role, name := m.name, content := m.content })

/-- Modelled from the spec: `AgentGroupChat.get_chat_messages` (library
code, not in the repository) yields the chat messages newest-first; the
source reverses it back to chronological order before filtering.  The
spec's reverse-chronological result scan relies on this ordering. -/
def get_chat_messages (history : List Turn) : List Turn :=
  history.reverse

/-- Embedding of lines 184-187:
`response = list(reversed([item async for item in agent_group_chat.get_chat_messages()]))`
then `reply = [r for r in response if r.name == "Writer"][-1]`.
`none` is the `IndexError` a `[-1]` on an empty list raises. -/
def last_writer_reply (history : List Turn) : Option Turn :=
  (((get_chat_messages history).reverse).filter
    (fun r => r.name == "Writer")).getLast?

/-- One event on the generator's output stream: a plain-text status
string, or the terminal `json.dumps(reply)` record. -/
inductive Event
| status (text : String)
| result (reply : Turn)
deriving DecidableEq, Repr

/-- Whether an event is a plain-text status update. -/
def isStatus : Event → Bool
  | Event.status _ => true
  | Event.result _ => false

/-- The statuses yielded inside the `async for` loop (lines 176-182):
after each produced turn is appended to `messages`, yield
`describe_next_action(kernel, settings, messages)` over the turns
collected so far. -/
def statusEvents (next_action : List Turn → String)
    (produced : List Turn) : List Event :=
  (List.range produced.length).map
    (fun i => Event.status (next_action (produced.take (i + 1))))

/-- Embedding of the event stream of `process_conversation`
(lines 172-190), given the turns the group chat produced.  The
generator yields `"WRITER: Prepares the initial draft"`, then one
status per produced turn, then — if the last-Writer lookup succeeds —
the terminal JSON reply.  On `IndexError` (no Writer turn anywhere in
the chat) the generator raises after the statuses and never yields a
terminal record; the second component reports that error. -/
def process_conversation (conversation_messages : List InMessage)
    (produced : List Turn) (next_action : List Turn → String) :
    List Event × Option PyError :=
  match last_writer_reply (load_chat_history conversation_messages ++ produced) with
  | some reply =>
      ((Event.status "WRITER: Prepares the initial draft"
          :: statusEvents next_action produced) ++ [Event.result reply], none)
  | none =>
      (Event.status "WRITER: Prepares the initial draft"
          :: statusEvents next_action produced, some PyError.indexError)

/- ----------------------------------------------------------------
Theorems
---------------------------------------------------------------- -/

/-- C1 (counterexample): the selector does not always return a roster
name.  When the selection model's output value is the single string
`"Unknown"`, `parse_selection_output` returns `"Unknown"` verbatim,
which is not a name of the roster `["Writer", "Critic"]` — it does not
fall back to the default agent. -/
theorem selection_unknown_name_cex :
    parse_selection_output "Critic"
        { value := some [{ content := "Unknown" }] } = Except.ok "Unknown" ∧
    "Unknown" ∉ roster := by
  exact ⟨rfl, by decide⟩

/-- C1 (amended): the Turn-Selector's result parser falls back to the
configured default agent (the critic) exactly when the model output's
value is `None`; when the value is a non-empty list it returns the first
entry's content verbatim, without validating it against the Roster (so
an unrecognized or empty name is passed through); and a present but
empty value list raises an `IndexError` instead of falling back. -/
theorem parse_selection_output_cases :
    (∀ d : String, parse_selection_output d { value := none } = Except.ok d) ∧
    (∀ (d : String) (c : SelectionContent) (rest : List SelectionContent),
        parse_selection_output d { value := some (c :: rest) } = Except.ok c.content) ∧
    (∀ d : String, parse_selection_output d { value := some [] }
        = Except.error PyError.indexError) :=
  ⟨fun _ => rfl, fun _ _ _ => rfl, fun _ => rfl⟩

/-- C2: whenever the score-extraction chain of the Termination
Evaluator yields a number `q`, `should_agent_terminate` decides to stop
if and only if `q` is at least the fixed passing threshold 8.0. -/
theorem termination_score_threshold (st : TerminationStrategy) (q : ℚ) :
    (should_agent_terminate st (some q)).2.1 = true ↔ passing_score ≤ q := by
  simp [should_agent_terminate, evalStop]

/-- C3: whenever the extraction step does not yield a value parseable
as a real number (the `ValueError` branch, `extracted = none`), the
Termination Evaluator returns normally — the counter is still
incremented, the effect trace is complete — with the decision `false`,
so the debate stays running instead of erroring. -/
theorem termination_unparseable_continues (st : TerminationStrategy) :
    should_agent_terminate st none =
      ({ st with iteration := st.iteration + 1 }, false,
        [TermEvent.incremented (st.iteration + 1), TermEvent.evaluated false]) :=
  rfl

/-- C4: every invocation of `should_agent_terminate` increments the
iteration counter by exactly 1, and in the invocation's effect trace
the increment (already carrying the new value) strictly precedes the
evaluation of the termination condition, for every outcome of the
extraction step. -/
theorem termination_increment_once_before_eval
    (st : TerminationStrategy) (extracted : Option ℚ) :
    (should_agent_terminate st extracted).1.iteration = st.iteration + 1 ∧
    (should_agent_terminate st extracted).2.2 =
      [TermEvent.incremented (st.iteration + 1),
       TermEvent.evaluated (should_agent_terminate st extracted).2.1] :=
  ⟨rfl, rfl⟩

/-- C10: the termination strategy evaluates nothing for unregistered
agents — the strategy state (hence the iteration counter) is unchanged,
the decision is `false`, and the effect trace is empty (no score
extraction) — and `create_agent_group_chat` registers the strategy with
the Critic alone, so a Writer turn never triggers the evaluator. -/
theorem termination_only_registered_agents :
    (∀ (st : TerminationStrategy) (name : String) (extracted : Option ℚ),
        name ∉ st.agents → should_terminate st name extracted = (st, false, [])) ∧
    create_agent_group_chat_termination.agents = ["Critic"] ∧
    "Writer" ∉ create_agent_group_chat_termination.agents := by
  refine ⟨?_, rfl, by decide⟩
  intro st name extracted h
  simp [should_terminate, h]

/-- Witness for C10 at a concrete input: the group chat's own strategy,
asked about a Writer turn, changes nothing and extracts nothing. -/
theorem termination_only_registered_agents_witness :
    should_terminate (create_termination_strategy ["Critic"] 6) "Writer" (some 9)
      = (create_termination_strategy ["Critic"] 6, false, []) :=
  termination_only_registered_agents.1
    (create_termination_strategy ["Critic"] 6) "Writer" (some 9) (by decide)

/-- `should_terminate` never changes the configured maximum. -/
lemma should_terminate_max_eq (st : TerminationStrategy) (name : String)
    (extracted : Option ℚ) :
    (should_terminate st name extracted).1.maximum_iterations
      = st.maximum_iterations := by
  by_cases h : name ∈ st.agents <;>
    simp [should_terminate, h, should_agent_terminate]

/-- `should_terminate` raises the counter by at most one. -/
lemma should_terminate_iter_le (st : TerminationStrategy) (name : String)
    (extracted : Option ℚ) :
    (should_terminate st name extracted).1.iteration ≤ st.iteration + 1 := by
  by_cases h : name ∈ st.agents <;>
    simp [should_terminate, h, should_agent_terminate]

/-- If the strategy does not stop, the counter stays strictly below the
maximum (given it was strictly below before the call). -/
lemma should_terminate_not_stop_lt (st : TerminationStrategy) (name : String)
    (extracted : Option ℚ) (hlt : st.iteration < st.maximum_iterations)
    (hstop : (should_terminate st name extracted).2.1 = false) :
    (should_terminate st name extracted).1.iteration < st.maximum_iterations := by
  by_cases h : name ∈ st.agents
  · simp [should_terminate, h, should_agent_terminate] at hstop ⊢
    omega
  · simpa [should_terminate, h] using hlt

/-- One debate step never changes the configured maximum. -/
lemma debate_step_max_eq (d : LoopDeps) (s : GroupChat) :
    (debate_step d s).1.termination.maximum_iterations
      = s.termination.maximum_iterations :=
  should_terminate_max_eq s.termination (d.select s.history)
    (d.extract (d.produce (d.select s.history) s.history).content)

/-- One debate step raises the counter by at most one. -/
lemma debate_step_iter_le (d : LoopDeps) (s : GroupChat) :
    (debate_step d s).1.termination.iteration ≤ s.termination.iteration + 1 :=
  should_terminate_iter_le s.termination (d.select s.history)
    (d.extract (d.produce (d.select s.history) s.history).content)

/-- A step that does not stop keeps the counter strictly below the
maximum. -/
lemma debate_step_not_stop_lt (d : LoopDeps) (s : GroupChat)
    (hlt : s.termination.iteration < s.termination.maximum_iterations)
    (hstop : (debate_step d s).2 = false) :
    (debate_step d s).1.termination.iteration
      < (debate_step d s).1.termination.maximum_iterations := by
  rw [debate_step_max_eq]
  exact should_terminate_not_stop_lt s.termination (d.select s.history)
    (d.extract (d.produce (d.select s.history) s.history).content) hlt hstop

/-- C5: the hard iteration cap.  First, once the Termination Evaluator
has been invoked `maximum_iterations` times (the incremented counter
reaches the configured maximum), `should_terminate` forces the stop
decision for a registered agent, whatever the extraction returned —
even `none`.  Second, along every run of the debate loop (any fuel, any
external model behaviour), the evaluator's counter never passes the
configured maximum (default 6, set in `create_agent_group_chat`). -/
theorem debate_iteration_cap :
    (∀ (st : TerminationStrategy) (name : String) (extracted : Option ℚ),
        name ∈ st.agents → st.maximum_iterations ≤ st.iteration + 1 →
        (should_terminate st name extracted).2.1 = true) ∧
    (∀ (d : LoopDeps) (fuel : Nat) (s : GroupChat),
        s.termination.iteration < s.termination.maximum_iterations →
        (debate_run d fuel s).1.termination.iteration
          ≤ s.termination.maximum_iterations) := by
  constructor
  · intro st name extracted hmem hcap
    simp [should_terminate, hmem, should_agent_terminate]
    omega
  · intro d fuel
    induction fuel with
    | zero =>
      intro s h
      simpa [debate_run] using Nat.le_of_lt h
    | succ n ih =>
      intro s h
      rw [debate_run]
      by_cases hstop : (debate_step d s).2
      · simpa [hstop] using
          le_trans (debate_step_iter_le d s) (by omega)
      · simp only [hstop, if_neg Bool.false_ne_true]
        calc (debate_run d n (debate_step d s).1).1.termination.iteration
            ≤ (debate_step d s).1.termination.maximum_iterations :=
              ih (debate_step d s).1
                (debate_step_not_stop_lt d s h (Bool.not_eq_true _ ▸ hstop))
          _ = s.termination.maximum_iterations := debate_step_max_eq d s

/-- A concrete debate run used to witness the cap theorem. -/
def demo_deps : LoopDeps :=
  { select := fun _ => "Critic",
    produce := fun n _ => { role := AuthorRole.assistant, name := n, content := "7/10" },
    extract := fun _ => none }

/-- A concrete fresh group chat with the source's configuration. -/
def demo_chat : GroupChat :=
  { history := [], termination := create_termination_strategy ["Critic"] 6 }

/-- Witness for C5 at concrete inputs: with the counter at 5 of 6 the
sixth invocation stops even though extraction failed, and a 10-step run
from a fresh chat never drives the counter past 6. -/
theorem debate_iteration_cap_witness :
    (should_terminate { agents := ["Critic"], maximum_iterations := 6, iteration := 5 }
        "Critic" none).2.1 = true ∧
    (debate_run demo_deps 10 demo_chat).1.termination.iteration ≤ 6 := by
  constructor
  · exact debate_iteration_cap.1
      { agents := ["Critic"], maximum_iterations := 6, iteration := 5 }
      "Critic" none (by decide) (by decide)
  · have h := debate_iteration_cap.2 demo_deps 10 demo_chat (by decide)
    simpa [demo_chat, create_termination_strategy] using h

/-- The first match of a predicate is the head of the filtered list. -/
lemma head?_filter {α : Type} (p : α → Bool) (l : List α) :
    (l.filter p).head? = l.find? p := by
  induction l with
  | nil => rfl
  | cons a t ih =>
    by_cases h : p a <;> simp [List.filter_cons, List.find?_cons, h, ih]

/-- C6: the reply computation of `process_conversation` — reverse the
newest-first `get_chat_messages`, filter on `name == "Writer"`, take the
last element — returns exactly the first Writer turn found when
scanning the chronological History backwards, i.e. the most recent
producer turn; and it is not simply the last turn of the History, from
which it differs on a debate that ends on a critique. -/
theorem last_writer_reply_most_recent :
    (∀ history : List Turn,
        last_writer_reply history
          = history.reverse.find? (fun r => r.name == "Writer")) ∧
    (∃ history : List Turn, last_writer_reply history ≠ history.getLast?) := by
  constructor
  · intro history
    unfold last_writer_reply get_chat_messages
    rw [List.reverse_reverse, List.getLast?_eq_head?_reverse, ← List.filter_reverse,
      head?_filter]
  · refine ⟨[{ role := AuthorRole.assistant, name := "Writer", content := "draft" },
             { role := AuthorRole.assistant, name := "Critic", content := "critique" }],
            ?_⟩
    decide

/-- Every event the status phase yields is a plain-text status. -/
lemma statusEvents_all_status (next_action : List Turn → String)
    (produced : List Turn) :
    ∀ e ∈ statusEvents next_action produced, isStatus e = true := by
  intro e he
  obtain ⟨i, _, rfl⟩ := List.mem_map.mp he
  rfl

/-- The status phase yields one event per produced turn. -/
lemma statusEvents_length (next_action : List Turn → String)
    (produced : List Turn) :
    (statusEvents next_action produced).length = produced.length := by
  simp [statusEvents]

/-- If nobody in the final history is named Writer, the reply lookup
raises (returns `none`). -/
lemma last_writer_reply_eq_none (history : List Turn)
    (h : ∀ t ∈ history, t.name ≠ "Writer") :
    last_writer_reply history = none := by
  unfold last_writer_reply get_chat_messages
  rw [List.reverse_reverse]
  have : history.filter (fun r => r.name == "Writer") = [] := by
    refine List.filter_eq_nil_iff.mpr ?_
    intro t ht
    simpa using h t ht
  rw [this]
  rfl

/-- C7: if the final chat history (seeded turns plus produced turns)
contains no turn authored by the Writer, `process_conversation` ends in
the `IndexError` of `[...][-1]` — the error propagates to the caller —
and every event that was emitted on the stream is a plain-text status:
no terminal structured result is ever yielded. -/
theorem no_writer_reply_fatal (conversation_messages : List InMessage)
    (produced : List Turn) (next_action : List Turn → String)
    (h : ∀ t ∈ load_chat_history conversation_messages ++ produced,
        t.name ≠ "Writer") :
    (process_conversation conversation_messages produced next_action).2
        = some PyError.indexError ∧
    (process_conversation conversation_messages produced next_action).1.all
        isStatus = true := by
  unfold process_conversation
  rw [last_writer_reply_eq_none _ h]
  refine ⟨rfl, ?_⟩
  rw [List.all_eq_true]
  intro e he
  rcases List.mem_cons.mp he with h1 | h2
  · rw [h1]; rfl
  · exact statusEvents_all_status next_action produced e h2

/-- Witness for C7 at a concrete input: a debate whose only produced
turn is a Critic turn errors out with only statuses on the stream. -/
theorem no_writer_reply_fatal_witness :
    (process_conversation []
        [{ role := AuthorRole.assistant, name := "Critic", content := "critique" }]
        (fun _ => "status")).2 = some PyError.indexError ∧
    (process_conversation []
        [{ role := AuthorRole.assistant, name := "Critic", content := "critique" }]
        (fun _ => "status")).1.all isStatus = true :=
  no_writer_reply_fatal []
    [{ role := AuthorRole.assistant, name := "Critic", content := "critique" }]
    (fun _ => "status") (by decide)

/-- C8 (counterexample): the status events are not one per completed
turn.  On a successful run with exactly one produced turn the stream
carries two plain-text statuses — the generator yields
`"WRITER: Prepares the initial draft"` before the loop ever runs. -/
theorem stream_extra_initial_status_cex :
    (process_conversation []
        [{ role := AuthorRole.assistant, name := "Writer", content := "draft" }]
        (fun _ => "status")).1.countP isStatus
      ≠ [({ role := AuthorRole.assistant, name := "Writer", content := "draft" } :
          Turn)].length := by
  decide

/-- C8 (amended): on every successful run (the final history contains a
Writer turn, so the reply lookup yields `reply`), the stream is the
initial draft announcement, then exactly one plain-text status per
completed turn (`length produced + 1` statuses in all), followed by
exactly one terminal structured result — the last producer reply —
emitted as the last event. -/
theorem stream_shape_on_success (conversation_messages : List InMessage)
    (produced : List Turn) (next_action : List Turn → String) (reply : Turn)
    (h : last_writer_reply (load_chat_history conversation_messages ++ produced)
        = some reply) :
    (process_conversation conversation_messages produced next_action).2 = none ∧
    (process_conversation conversation_messages produced next_action).1
      = (Event.status "WRITER: Prepares the initial draft"
          :: statusEvents next_action produced) ++ [Event.result reply] ∧
    (process_conversation conversation_messages produced next_action).1.countP
        isStatus = produced.length + 1 ∧
    (process_conversation conversation_messages produced next_action).1.countP
        (fun e => !isStatus e) = 1 ∧
    (process_conversation conversation_messages produced next_action).1.getLast?
      = some (Event.result reply) := by
  unfold process_conversation
  rw [h]
  refine ⟨rfl, rfl, ?_, ?_, ?_⟩
  · rw [List.countP_append, List.countP_cons]
    have h1 : (statusEvents next_action produced).countP isStatus
        = produced.length := by
      rw [List.countP_eq_length.mpr (statusEvents_all_status next_action produced),
        statusEvents_length]
    simp [h1, isStatus]
  · have h0 : (statusEvents next_action produced).countP (fun e => !isStatus e)
        = 0 := by
      rw [List.countP_eq_zero]
      intro e he
      simp [statusEvents_all_status next_action produced e he]
    rw [List.countP_append, List.countP_cons, h0]
    simp [isStatus]
  · rw [List.getLast?_append]
    rfl

/-- Witness for C8 at a concrete input: a run that produced one Writer
draft and one Critic critique emits two statuses after the initial
announcement and ends with the Writer draft as the single result. -/
theorem stream_shape_on_success_witness :
    (process_conversation []
        [{ role := AuthorRole.assistant, name := "Writer", content := "draft" },
         { role := AuthorRole.assistant, name := "Critic", content := "critique" }]
        (fun _ => "status")).2 = none ∧
    (process_conversation []
        [{ role := AuthorRole.assistant, name := "Writer", content := "draft" },
         { role := AuthorRole.assistant, name := "Critic", content := "critique" }]
        (fun _ => "status")).1
      = (Event.status "WRITER: Prepares the initial draft"
          :: statusEvents (fun _ => "status")
              [{ role := AuthorRole.assistant, name := "Writer", content := "draft" },
               { role := AuthorRole.assistant, name := "Critic", content := "critique" }])
        ++ [Event.result { role := AuthorRole.assistant, name := "Writer", content := "draft" }] ∧
    (process_conversation []
        [{ role := AuthorRole.assistant, name := "Writer", content := "draft" },
         { role := AuthorRole.assistant, name := "Critic", content := "critique" }]
        (fun _ => "status")).1.countP isStatus = 2 + 1 ∧
    (process_conversation []
        [{ role := AuthorRole.assistant, name := "Writer", content := "draft" },
         { role := AuthorRole.assistant, name := "Critic", content := "critique" }]
        (fun _ => "status")).1.countP (fun e => !isStatus e) = 1 ∧
    (process_conversation []
        [{ role := AuthorRole.assistant, name := "Writer", content := "draft" },
         { role := AuthorRole.assistant, name := "Critic", content := "critique" }]
        (fun _ => "status")).1.getLast?
      = some (Event.result { role := AuthorRole.assistant, name := "Writer", content := "draft" }) :=
  stream_shape_on_success []
    [{ role := AuthorRole.assistant, name := "Writer", content := "draft" },
     { role := AuthorRole.assistant, name := "Critic", content := "critique" }]
    (fun _ => "status")
    { role := AuthorRole.assistant, name := "Writer", content := "draft" }
    (by decide)

/-- C9 (counterexample): two distinct creation timestamps — the same
calendar second, different microseconds, as `datetime.now()` can return
for two debates started in the same second — produce the same session
id for the same caller, because the format string
`%Y-%m-%d_%H:%M:%S` drops sub-second precision. -/
theorem session_id_collision_cex :
    ({ year := 2026, month := 10, day := 12, hour := 3, minute := 4, second := 5,
        microsecond := 0 } : DateTime)
      ≠ { year := 2026, month := 10, day := 12, hour := 3, minute := 4, second := 5,
          microsecond := 999999 } ∧
    session_id "alice"
        { year := 2026, month := 10, day := 12, hour := 3, minute := 4, second := 5,
          microsecond := 0 }
      = session_id "alice"
        { year := 2026, month := 10, day := 12, hour := 3, minute := 4, second := 5,
          microsecond := 999999 } := by
  exact ⟨by decide, rfl⟩

/-- Digit rendering is injective on single digits. -/
lemma digitChar_inj (a b : Nat) (ha : a ≤ 9) (hb : b ≤ 9)
    (h : digitChar a = digitChar b) : a = b := by
  interval_cases a <;> interval_cases b <;> revert h <;> decide

/-- The length of the formatted timestamp is fixed (19 characters), for
every datetime. -/
lemma strftime_fmt_length (t : DateTime) : (strftime_fmt t).data.length = 19 := by
  simp [strftime_fmt, four_digits, two_digits]

/-- The formatted timestamp determines every field above microseconds,
within the ranges the `datetime` library guarantees. -/
lemma strftime_fmt_inj (t1 t2 : DateTime)
    (hy1 : t1.year ≤ 9999) (hmo1 : t1.month ≤ 99) (hd1 : t1.day ≤ 99)
    (hh1 : t1.hour ≤ 99) (hmi1 : t1.minute ≤ 99) (hs1 : t1.second ≤ 99)
    (hy2 : t2.year ≤ 9999) (hmo2 : t2.month ≤ 99) (hd2 : t2.day ≤ 99)
    (hh2 : t2.hour ≤ 99) (hmi2 : t2.minute ≤ 99) (hs2 : t2.second ≤ 99)
    (h : (strftime_fmt t1).data = (strftime_fmt t2).data) :
    t1.year = t2.year ∧ t1.month = t2.month ∧ t1.day = t2.day ∧
    t1.hour = t2.hour ∧ t1.minute = t2.minute ∧ t1.second = t2.second := by
  simp only [strftime_fmt, four_digits, two_digits, List.cons_append,
    List.nil_append, List.cons.injEq, and_true, true_and, and_self] at h
  obtain ⟨hya, hyb, hyc, hyd, hmoa, hmob, hda, hdb, hha, hhb, hmia, hmib,
    hsa, hsb⟩ := h
  refine ⟨?_, ?_, ?_, ?_, ?_, ?_⟩
  · have e1 := digitChar_inj _ _ (by omega) (by omega) hya
    have e2 := digitChar_inj _ _ (by omega) (by omega) hyb
    have e3 := digitChar_inj _ _ (by omega) (by omega) hyc
    have e4 := digitChar_inj _ _ (by omega) (by omega) hyd
    omega
  · have e1 := digitChar_inj _ _ (by omega) (by omega) hmoa
    have e2 := digitChar_inj _ _ (by omega) (by omega) hmob
    omega
  · have e1 := digitChar_inj _ _ (by omega) (by omega) hda
    have e2 := digitChar_inj _ _ (by omega) (by omega) hdb
    omega
  · have e1 := digitChar_inj _ _ (by omega) (by omega) hha
    have e2 := digitChar_inj _ _ (by omega) (by omega) hhb
    omega
  · have e1 := digitChar_inj _ _ (by omega) (by omega) hmia
    have e2 := digitChar_inj _ _ (by omega) (by omega) hmib
    omega
  · have e1 := digitChar_inj _ _ (by omega) (by omega) hsa
    have e2 := digitChar_inj _ _ (by omega) (by omega) hsb
    omega

/-- C9 (amended): the session id is the caller identity plus the
creation timestamp formatted at second precision, and it is unique per
(caller, second-precision timestamp) pair: if two sessions receive the
same id then the callers are equal and the timestamps agree on every
field down to the second (only sub-second-distinct start times, in the
same calendar second, can collide).  The bounds are the ranges the
`datetime` library guarantees for its fields. -/
theorem session_id_unique_per_second (u1 u2 : String) (t1 t2 : DateTime)
    (hy1 : t1.year ≤ 9999) (hmo1 : t1.month ≤ 99) (hd1 : t1.day ≤ 99)
    (hh1 : t1.hour ≤ 99) (hmi1 : t1.minute ≤ 99) (hs1 : t1.second ≤ 99)
    (hy2 : t2.year ≤ 9999) (hmo2 : t2.month ≤ 99) (hd2 : t2.day ≤ 99)
    (hh2 : t2.hour ≤ 99) (hmi2 : t2.minute ≤ 99) (hs2 : t2.second ≤ 99)
    (h : session_id u1 t1 = session_id u2 t2) :
    u1 = u2 ∧ t1.year = t2.year ∧ t1.month = t2.month ∧ t1.day = t2.day ∧
    t1.hour = t2.hour ∧ t1.minute = t2.minute ∧ t1.second = t2.second := by
  have hd := congrArg String.data h
  simp only [session_id] at hd
  rw [String.data_append, String.data_append, String.data_append,
    String.data_append] at hd
  have hlen : (strftime_fmt t1).data.length = (strftime_fmt t2).data.length := by
    rw [strftime_fmt_length, strftime_fmt_length]
  obtain ⟨hl, hr⟩ := List.append_inj' hd hlen
  refine ⟨?_, strftime_fmt_inj t1 t2 hy1 hmo1 hd1 hh1 hmi1 hs1
    hy2 hmo2 hd2 hh2 hmi2 hs2 hr⟩
  have hu : u1.data = u2.data := List.append_cancel_right hl
  cases u1
  cases u2
  exact congrArg String.mk hu

/-- Witness for C9 at concrete inputs: two timestamps that differ only
below the second give the same id for caller `"alice"`, and the theorem
recovers the caller and every second-precision field. -/
theorem session_id_unique_per_second_witness :
    ("alice" : String) = "alice" ∧ (2026 : Nat) = 2026 ∧ (10 : Nat) = 10 ∧
    (12 : Nat) = 12 ∧ (3 : Nat) = 3 ∧ (4 : Nat) = 4 ∧ (5 : Nat) = 5 :=
  session_id_unique_per_second "alice" "alice"
    { year := 2026, month := 10, day := 12, hour := 3, minute := 4, second := 5,
      microsecond := 0 }
    { year := 2026, month := 10, day := 12, hour := 3, minute := 4, second := 5,
      microsecond := 999999 }
    (by decide) (by decide) (by decide) (by decide) (by decide) (by decide)
    (by decide) (by decide) (by decide) (by decide) (by decide) (by decide)
    rfl

end Debate
